import Mathlib

/-!
Verification of the conversation state machine and resumable scheduling
engine of the time_to_work bot (src/bot/main.py).  Pure helpers of the
source are translated to Lean functions; the asynchronous handlers are
translated to state-passing functions that additionally return the ordered
list of externally visible actions (messages sent, task cancellation /
await / creation, state-file writes) they perform.  Raising a Python
exception is modelled by an `Except.error` result.
-/

namespace TimeToWorkBot

/-- Python exception kinds raised by the embedded code paths. -/
inductive PyError where
  | valueError
  | typeError
  | attributeError
  | keyError
deriving DecidableEq, Repr

/-- Python str.strip(): remove leading and trailing whitespace. -/
def pyStrip (s : String) : String :=
  (((s.toList.dropWhile Char.isWhitespace).reverse.dropWhile
      Char.isWhitespace).reverse).asString

/-- Character level model of Python str.isdigit(): true for the decimal
digits and also for digit characters that are not decimal digits
(Unicode Numeric_Type=Digit), such as the Latin-1 superscript digits
U+00B9, U+00B2, U+00B3.  Python's int() accepts only the decimal digits,
not the superscripts: "²".isdigit() is True while int("²") raises
ValueError. -/
def pyIsDigitChar (c : Char) : Bool :=
  c.isDigit || c = '¹' || c = '²' || c = '³'

/-- Python str.isdigit(): nonempty and every character a digit character. -/
def pyIsdigit (s : String) : Bool :=
  !s.toList.isEmpty && s.toList.all pyIsDigitChar

/-- Numeric value of a list of ASCII decimal digits. -/
def decDigitsVal (l : List Char) : Nat :=
  l.foldl (fun a c => a * 10 + (c.toNat - 48)) 0

/-- Python int() applied to a string: strip whitespace, optional sign,
then ASCII decimal digits (underscore grouping and non-ASCII decimal
digits are not modelled); any other input raises ValueError (none). -/
def pyParseInt (s : String) : Option Int :=
  match (pyStrip s).toList with
  | [] => none
  | c :: rest =>
    if c = '-' then
      if !rest.isEmpty && rest.all Char.isDigit then
        some (-(decDigitsVal rest : Int))
      else none
    else if c = '+' then
      if !rest.isEmpty && rest.all Char.isDigit then
        some (decDigitsVal rest)
      else none
    else
      if !(c :: rest).isEmpty && (c :: rest).all Char.isDigit then
        some (decDigitsVal (c :: rest))
      else none

/-- Python int(text) with the ValueError made explicit. -/
def pyInt (s : String) : Except PyError Int :=
  match pyParseInt s with
  | some n => Except.ok n
  | none => Except.error PyError.valueError

/-- JSON values as returned by json.load.  Numbers are modelled as
integers; the schedule store only ever holds integer minute counts. -/
inductive Json where
  | dict : List (String × Json) → Json
  | list : List Json → Json
  | num : Int → Json
  | str : String → Json
  | bool : Bool → Json
  | null : Json

/-- Whether a JSON value is a Python dict (isinstance(x, dict)). -/
def isDict : Json → Bool
  | Json.dict _ => true
  | _ => false

/-- Lookup in a Python dict, first (and on dicts only) occurrence of the
key: d.get(k) and d[k]. -/
def dictGet : List (String × Json) → String → Option Json
  | [], _ => none
  | p :: l, k => if p.1 = k then some p.2 else dictGet l k

/-- Python dict item assignment d[k] = v: replace the value at an existing
key in place, otherwise append the new pair at the end. -/
def dictSet : List (String × Json) → String → Json → List (String × Json)
  | [], k, v => [(k, v)]
  | p :: l, k, v => if p.1 = k then (k, v) :: l else p :: dictSet l k v

/-- Number of entries of a dict carrying the given key. -/
def countKey : List (String × Json) → String → Nat
  | [], _ => 0
  | p :: l, k => (if p.1 = k then 1 else 0) + countKey l k

/-- State of the backing file schedule_state.json. -/
inductive FileState where
  | missing
  | unreadable
  | stored (j : Json)

/-- The _load_state function (src/bot/main.py lines 43-51):
FileNotFoundError yields an empty dict; any other failure (unreadable
file, JSON parse error) is logged as a warning and also yields an empty
dict; otherwise the parsed JSON value is returned as-is, whatever its
shape (the function never raises). -/
def loadState : FileState → Json
  | FileState.missing => Json.dict []
  | FileState.unreadable => Json.dict []
  | FileState.stored j => j

/-- The JSON record written for one chat: json for
int(work_m) and int(rest_m) under keys "work" and "rest". -/
def cfgJson (workM restM : Int) : Json :=
  Json.dict [("work", Json.num workM), ("rest", Json.num restM)]

/-- The _save_state_for_chat function (lines 54-60): load the whole store,
assign data[str(chat_id)], dump to a temporary file and atomically
os.replace it over the canonical path.  When the loaded value is not a
dict, the item assignment raises TypeError. -/
def saveStateForChat (f : FileState) (chatId : Int) (workM restM : Int) :
    Except PyError FileState :=
  match loadState f with
  | Json.dict data =>
    Except.ok (FileState.stored
      (Json.dict (dictSet data (toString chatId) (cfgJson workM restM))))
  | _ => Except.error PyError.typeError

/-- Python int(x) on a JSON value, as used on store entries inside the
try/except of _get_saved_durations (failures collapse to none there). -/
def pyIntOfJson : Json → Option Int
  | Json.num n => some n
  | Json.str s => pyParseInt s
  | Json.bool b => some (if b then 1 else 0)
  | _ => none

/-- The _get_saved_durations function (lines 63-71).  Loads the store and
extracts this chat's entry; int conversion failures inside the entry are
swallowed (try/except returning None).  When the loaded value is not a
dict, data.get raises AttributeError, which propagates to the caller. -/
def getSavedDurations (chatId : Int) (f : FileState) :
    Except PyError (Option (Int × Int)) :=
  match loadState f with
  | Json.dict data =>
    match dictGet data (toString chatId) with
    | some (Json.dict entry) =>
      if (dictGet entry "work").isSome && (dictGet entry "rest").isSome then
        match (dictGet entry "work").bind pyIntOfJson,
              (dictGet entry "rest").bind pyIntOfJson with
        | some w, some r => Except.ok (some (w, r))
        | _, _ => Except.ok none
      else Except.ok none
    | _ => Except.ok none
  | _ => Except.error PyError.attributeError

/-- States of the ConversationHandler (line 28) plus ConversationHandler.END. -/
inductive ConvState where
  | CHOOSING_SCHEDULE
  | WORK_DURATION
  | REST_DURATION
  | HOUSEHOLD_TIME
  | HOUSEHOLD_TEXT
  | END
deriving DecidableEq, Repr

/-- An asyncio.Task handle held in chat_data["work_rest_task"]. -/
structure TaskRef where
  id : Nat
  done : Bool
deriving DecidableEq, Repr

/-- The per-chat mutable context: context.chat_data keys used by the bot. -/
structure ChatData where
  work_rest_task : Option TaskRef
  last_work_m : Option Int
  last_rest_m : Option Int
deriving DecidableEq, Repr

/-- The per-user mutable context: context.user_data keys used by the bot. -/
structure UserData where
  work_minutes : Option Int
  rest_minutes : Option Int
deriving DecidableEq, Repr

/-- Externally visible actions performed by a handler or by the work/rest
loop, in program order. -/
inductive Event where
  | cancelTask (id : Nat)
  | awaitTask (id : Nat)
  | clearRef
  | createTask (id : Nat)
  | saveState
  | send (text : String)
  | sleep (seconds : Int)
deriving DecidableEq, Repr

/-- Message texts of the handlers (translated verbatim from the source). -/
def workPhaseText : String := "Пора работать!"

def restPhaseText : String := "Пора отдыхать!"

def chooseText : String := "Выбери вид расписания на сегодня"

def workRepromptText : String := "Введите положительное число минут, например 50"

def restAskText : String := "Сколько времени на отдых? (Введите ответ в минутах)"

def restRepromptText : String := "Введите положительное число минут, например 10"

def okText (workM restM : Int) : String :=
  "Ок! Запускаю расписание: работа " ++ toString workM ++ " мин, отдых "
    ++ toString restM ++ " мин."

def stoppedOfferText : String := "Расписание остановлено. Хотите возобновить?"

def stoppedText : String := "Расписание остановлено."

def resumeOfferText : String := "Хотите возобновить?"

def nothingActiveText : String := "Нет активного расписания."

def noSavedText : String := "Нет сохранённых настроек. Запустите заново через /start."

def resumedText (workM restM : Int) : String :=
  "Расписание возобновлено: работа " ++ toString workM ++ " мин, отдых "
    ++ toString restM ++ " мин."

/-- Result of _cancel_any_running_schedule: the returned bool, chat_data
afterwards, and the actions taken. -/
structure CancelResult where
  cancelled : Bool
  chat : ChatData
  events : List Event

/-- The _cancel_any_running_schedule function (lines 311-322): if a task is
stored and not done, cancel it, await its unwinding (CancelledError is
swallowed), pop the reference and return True; otherwise pop the reference
and return False.  It never raises. -/
def cancelAnyRunningSchedule (cd : ChatData) : CancelResult :=
  match cd.work_rest_task with
  | some t =>
    if t.done then
      ⟨false, { cd with work_rest_task := none }, [Event.clearRef]⟩
    else
      ⟨true, { cd with work_rest_task := none },
        [Event.cancelTask t.id, Event.awaitTask t.id, Event.clearRef]⟩
  | none => ⟨false, { cd with work_rest_task := none }, [Event.clearRef]⟩

/-- The start handler (lines 92-100): cancel any ongoing schedule, prompt
for the schedule kind, enter CHOOSING_SCHEDULE. -/
def start (cd : ChatData) : ConvState × ChatData × List Event :=
  let c := cancelAnyRunningSchedule cd
  (ConvState.CHOOSING_SCHEDULE, c.chat, c.events ++ [Event.send chooseText])

/-- The work_duration handler (lines 127-135).  The int(text) in the guard
is evaluated only when text.isdigit() is true (short-circuit or). -/
def work_duration (msgText : String) (ud : UserData) :
    Except PyError (ConvState × UserData × List Event) :=
  let text := pyStrip msgText
  if !(pyIsdigit text) then
    Except.ok (ConvState.WORK_DURATION, ud, [Event.send workRepromptText])
  else
    match pyInt text with
    | Except.error e => Except.error e
    | Except.ok n =>
      if n ≤ 0 then
        Except.ok (ConvState.WORK_DURATION, ud, [Event.send workRepromptText])
      else
        Except.ok (ConvState.REST_DURATION, { ud with work_minutes := some n },
          [Event.send restAskText])

/-- Result of a handler that can touch every piece of state. -/
structure HandlerResult where
  state : ConvState
  user : UserData
  chat : ChatData
  file : FileState
  events : List Event

/-- The rest_duration handler (lines 138-173): validate the rest minutes,
buffer them, announce the schedule, cancel any existing schedule, create
the work/rest loop task, cache the pair in chat_data, persist it, and send
an immediate first work-phase message (line 166) in addition to the one the
loop itself sends.  Reading user_data["work_minutes"] raises KeyError when
absent. -/
def rest_duration (msgText : String) (chatId : Int) (ud : UserData)
    (cd : ChatData) (f : FileState) (nid : Nat) :
    Except PyError HandlerResult :=
  let text := pyStrip msgText
  if !(pyIsdigit text) then
    Except.ok ⟨ConvState.REST_DURATION, ud, cd, f, [Event.send restRepromptText]⟩
  else
    match pyInt text with
    | Except.error e => Except.error e
    | Except.ok n =>
      if n ≤ 0 then
        Except.ok ⟨ConvState.REST_DURATION, ud, cd, f, [Event.send restRepromptText]⟩
      else
        let ud1 : UserData := { ud with rest_minutes := some n }
        match ud1.work_minutes with
        | none => Except.error PyError.keyError
        | some workM =>
          let c := cancelAnyRunningSchedule cd
          match saveStateForChat f chatId workM n with
          | Except.error e => Except.error e
          | Except.ok f1 =>
            Except.ok ⟨ConvState.END, ud1,
              { c.chat with
                  work_rest_task := some ⟨nid, false⟩
                  last_work_m := some workM
                  last_rest_m := some n }, f1,
              [Event.send (okText workM n)] ++ c.events
                ++ [Event.createTask nid, Event.saveState,
                    Event.send workPhaseText]⟩

/-- The stop_command handler (lines 250-258). -/
def stop_command (cd : ChatData) : ChatData × List Event :=
  let c := cancelAnyRunningSchedule cd
  if c.cancelled then
    (c.chat, c.events ++ [Event.send stoppedOfferText])
  else
    (c.chat, c.events ++ [Event.send nothingActiveText])

/-- The stop_button handler (lines 232-247), modelling the body after the
callback-data guard; the CallbackQueryHandler pattern (line 388) guarantees
query.data = "stop_schedule" so the guard is always taken. -/
def stop_button (cd : ChatData) : ChatData × List Event :=
  let c := cancelAnyRunningSchedule cd
  if c.cancelled then
    (c.chat, c.events ++ [Event.send stoppedText, Event.send resumeOfferText])
  else
    (c.chat, c.events ++ [Event.send nothingActiveText])

/-- Result of a resume handler: chat_data and file afterwards, the actions,
and the configuration the new cycle was started with (none if no cycle was
started). -/
structure ResumeResult where
  chat : ChatData
  file : FileState
  events : List Event
  started : Option (Int × Int)

/-- The resume_command handler (lines 289-308): prefer the in-memory
last_work_m/last_rest_m pair when both are ints, otherwise fall back to
_get_saved_durations; report and stop if neither exists; otherwise cancel
any running schedule, start the loop, and refresh the in-memory cache.  It
does not write the store. -/
def resume_command (chatId : Int) (cd : ChatData) (f : FileState) (nid : Nat) :
    Except PyError ResumeResult :=
  let mem : Option (Int × Int) :=
    match cd.last_work_m, cd.last_rest_m with
    | some w, some r => some (w, r)
    | _, _ => none
  let go : Int × Int → ResumeResult := fun p =>
    let c := cancelAnyRunningSchedule cd
    { chat := { c.chat with
          work_rest_task := some ⟨nid, false⟩
          last_work_m := some p.1
          last_rest_m := some p.2 },
      file := f,
      events := c.events ++ [Event.createTask nid,
        Event.send (resumedText p.1 p.2)],
      started := some p }
  match mem with
  | some p => Except.ok (go p)
  | none =>
    match getSavedDurations chatId f with
    | Except.error e => Except.error e
    | Except.ok none =>
      Except.ok
        { chat := cd
          file := f
          events := [Event.send noSavedText]
          started := none }
    | Except.ok (some p) => Except.ok (go p)

/-- The resume_button handler (lines 261-287), modelling the body after the
callback-data guard (the pattern on line 389 guarantees it).  Same
configuration choice and cycle start as resume_command, but it neither
refreshes last_work_m/last_rest_m nor writes the store. -/
def resume_button (chatId : Int) (cd : ChatData) (f : FileState) (nid : Nat) :
    Except PyError ResumeResult :=
  let mem : Option (Int × Int) :=
    match cd.last_work_m, cd.last_rest_m with
    | some w, some r => some (w, r)
    | _, _ => none
  let go : Int × Int → ResumeResult := fun p =>
    let c := cancelAnyRunningSchedule cd
    { chat := { c.chat with work_rest_task := some ⟨nid, false⟩ },
      file := f,
      events := c.events ++ [Event.createTask nid,
        Event.send (resumedText p.1 p.2)],
      started := some p }
  match mem with
  | some p => Except.ok (go p)
  | none =>
    match getSavedDurations chatId f with
    | Except.error e => Except.error e
    | Except.ok none =>
      Except.ok
        { chat := cd
          file := f
          events := [Event.send noSavedText]
          started := none }
    | Except.ok (some p) => Except.ok (go p)

/-- Phases of the cycle. -/
inductive Phase where
  | work
  | rest
deriving DecidableEq, Repr

/-- Events of the _work_rest_loop task (lines 325-345) after n completed
sleeps: the loop body sends the work message, sleeps work_m * 60 seconds,
sends the rest message, sleeps rest_m * 60 seconds, and repeats.  A
cancellation is observed inside asyncio.sleep as CancelledError, which the
loop re-raises after logging (not at error severity), so a cancelled run
performs exactly such a finite prefix: no message follows the cancellation
acknowledgment. -/
def workRestLoopEvents (workM restM : Int) : Nat → List Event
  | 0 => [Event.send workPhaseText]
  | n + 1 =>
    workRestLoopEvents workM restM n ++
      (if n % 2 = 0 then [Event.sleep (workM * 60), Event.send restPhaseText]
       else [Event.sleep (restM * 60), Event.send workPhaseText])

/-- Which phase message, if any, an event is. -/
def phaseOfSend : Event → Option Phase
  | Event.send s =>
    if s = workPhaseText then some Phase.work
    else if s = restPhaseText then some Phase.rest
    else none
  | _ => none

/-- Whether an event is the work-phase message. -/
def isWorkPhaseSend : Event → Bool
  | Event.send s => s = workPhaseText
  | _ => false

/-- Number of work-phase messages in a list of events. -/
def countWorkSends (evs : List Event) : Nat :=
  evs.countP isWorkPhaseSend

/-- Seconds in a day, the granularity at which household_time compares
datetimes (now is modelled as an absolute timestamp in whole seconds;
now.date() corresponds to now / 86400). -/
def secondsPerDay : Nat := 86400

/-- The target-time computation of household_time (lines 184-191):
today's occurrence of the requested time-of-day, pushed to tomorrow when
it is less than or equal to now. -/
def householdTargetDt (now targetSec : Nat) : Nat :=
  let todayTarget := now / secondsPerDay * secondsPerDay + targetSec
  if todayTarget ≤ now then todayTarget + secondsPerDay else todayTarget

/-- The delay household_time stores (line 193). -/
def householdDelaySeconds (now targetSec : Nat) : Nat :=
  householdTargetDt now targetSec - now

/-- Modelled from the spec words of C6, for comparison with the code: the
least absolute timestamp at or after now whose time-of-day is targetSec. -/
def specNextAtOrAfter (now targetSec : Nat) : Nat :=
  if targetSec < now % secondsPerDay then
    now - now % secondsPerDay + targetSec + secondsPerDay
  else
    now - now % secondsPerDay + targetSec

/-- A store used by several concrete evaluations: chat 42 has work 25 and
rest 5 persisted. -/
def demoStore : FileState :=
  FileState.stored (Json.dict
    [("42", Json.dict [("work", Json.num 25), ("rest", Json.num 5)])])

/-! ### Lemmas about the persisted mapping -/

theorem dictGet_dictSet_self (l : List (String × Json)) (k : String) (v : Json) :
    dictGet (dictSet l k v) k = some v := by
  induction l with
  | nil => simp [dictSet, dictGet]
  | cons p l ih =>
    by_cases h : p.1 = k
    · simp [dictSet, dictGet, h]
    · simp [dictSet, dictGet, h, ih]

theorem dictGet_dictSet_ne (l : List (String × Json)) (k k' : String) (v : Json)
    (hne : k' ≠ k) : dictGet (dictSet l k v) k' = dictGet l k' := by
  induction l with
  | nil => simp [dictSet, dictGet, Ne.symm hne]
  | cons p l ih =>
    by_cases h : p.1 = k
    · simp [dictSet, dictGet, h, Ne.symm hne]
    · simp [dictSet, dictGet, h, ih]

theorem mem_keys_dictSet (l : List (String × Json)) (k k' : String) (v : Json)
    (h : k' ∈ (dictSet l k v).map Prod.fst) :
    k' ∈ l.map Prod.fst ∨ k' = k := by
  induction l with
  | nil =>
    rw [dictSet] at h
    simp at h
    exact Or.inr h
  | cons p l ih =>
    rw [dictSet] at h
    by_cases hk : p.1 = k
    · rw [if_pos hk, List.map_cons, List.mem_cons] at h
      rcases h with h | h
      · exact Or.inr h
      · exact Or.inl (by rw [List.map_cons, List.mem_cons]; exact Or.inr h)
    · rw [if_neg hk, List.map_cons, List.mem_cons] at h
      rcases h with h | h
      · exact Or.inl (by rw [List.map_cons, List.mem_cons]; exact Or.inl h)
      · rcases ih h with h1 | h1
        · exact Or.inl (by rw [List.map_cons, List.mem_cons]; exact Or.inr h1)
        · exact Or.inr h1

theorem nodup_keys_dictSet (l : List (String × Json)) (k : String) (v : Json)
    (h : (l.map Prod.fst).Nodup) : ((dictSet l k v).map Prod.fst).Nodup := by
  induction l with
  | nil => simp [dictSet]
  | cons p l ih =>
    rw [List.map_cons, List.nodup_cons] at h
    by_cases hk : p.1 = k
    · rw [dictSet, if_pos hk, List.map_cons, List.nodup_cons]
      exact ⟨hk ▸ h.1, h.2⟩
    · rw [dictSet, if_neg hk, List.map_cons, List.nodup_cons]
      refine ⟨fun hmem => ?_, ih h.2⟩
      rcases mem_keys_dictSet l k p.1 v hmem with h1 | h1
      · exact h.1 h1
      · exact hk h1

theorem countKey_eq_zero (l : List (String × Json)) (k : String)
    (h : k ∉ l.map Prod.fst) : countKey l k = 0 := by
  induction l with
  | nil => rfl
  | cons p l ih =>
    rw [List.map_cons, List.mem_cons] at h
    push_neg at h
    rw [countKey, if_neg (fun he => h.1 he.symm), ih h.2]

theorem countKey_dictSet (l : List (String × Json)) (k : String) (v : Json)
    (h : (l.map Prod.fst).Nodup) : countKey (dictSet l k v) k = 1 := by
  induction l with
  | nil => simp [dictSet, countKey]
  | cons p l ih =>
    rw [List.map_cons, List.nodup_cons] at h
    by_cases hk : p.1 = k
    · have h0 : countKey l k = 0 := countKey_eq_zero l k (hk ▸ h.1)
      rw [dictSet, if_pos hk, countKey, if_pos rfl, h0]
    · rw [dictSet, if_neg hk, countKey, if_neg hk, ih h.2]

/-- C8: save(id, config) merges config into the persisted mapping: the
saved chat maps to the new record, every other key is unchanged, keys stay
unique, and a second save for the same chat leaves exactly one record
holding the last written pair. -/
theorem save_merges_and_last_write_wins
    (f : FileState) (chatId w r w2 r2 : Int) (data : List (String × Json))
    (hload : loadState f = Json.dict data)
    (hnodup : (data.map Prod.fst).Nodup) :
    saveStateForChat f chatId w r
      = Except.ok (FileState.stored
          (Json.dict (dictSet data (toString chatId) (cfgJson w r))))
  ∧ dictGet (dictSet data (toString chatId) (cfgJson w r)) (toString chatId)
      = some (cfgJson w r)
  ∧ (∀ k, k ≠ toString chatId →
      dictGet (dictSet data (toString chatId) (cfgJson w r)) k = dictGet data k)
  ∧ ((dictSet data (toString chatId) (cfgJson w r)).map Prod.fst).Nodup
  ∧ countKey (dictSet data (toString chatId) (cfgJson w r)) (toString chatId) = 1
  ∧ dictGet (dictSet (dictSet data (toString chatId) (cfgJson w r))
        (toString chatId) (cfgJson w2 r2)) (toString chatId)
      = some (cfgJson w2 r2)
  ∧ countKey (dictSet (dictSet data (toString chatId) (cfgJson w r))
        (toString chatId) (cfgJson w2 r2)) (toString chatId) = 1 := by
  refine ⟨by simp [saveStateForChat, hload],
    dictGet_dictSet_self data (toString chatId) (cfgJson w r),
    fun k hk => dictGet_dictSet_ne data (toString chatId) k (cfgJson w r) hk,
    nodup_keys_dictSet data (toString chatId) (cfgJson w r) hnodup,
    countKey_dictSet data (toString chatId) (cfgJson w r) hnodup,
    dictGet_dictSet_self (dictSet data (toString chatId) (cfgJson w r))
      (toString chatId) (cfgJson w2 r2),
    countKey_dictSet (dictSet data (toString chatId) (cfgJson w r))
      (toString chatId) (cfgJson w2 r2)
      (nodup_keys_dictSet data (toString chatId) (cfgJson w r) hnodup)⟩

/-- Witness for C8 at the example of the spec: chat 42, (25, 5) then
(50, 10), on an initially missing store. -/
theorem save_merges_and_last_write_wins_witness :
    dictGet (dictSet (dictSet [] (toString (42 : Int)) (cfgJson 25 5))
        (toString (42 : Int)) (cfgJson 50 10)) (toString (42 : Int))
      = some (cfgJson 50 10)
  ∧ countKey (dictSet (dictSet [] (toString (42 : Int)) (cfgJson 25 5))
        (toString (42 : Int)) (cfgJson 50 10)) (toString (42 : Int)) = 1 := by
  have h := save_merges_and_last_write_wins FileState.missing 42 25 5 50 10 [] rfl
    (by simp)
  exact ⟨h.2.2.2.2.2.1, h.2.2.2.2.2.2⟩

/-- C10 (code bug evaluation): load returns the empty mapping for a missing
or unreadable/unparseable file, but a file whose JSON parses to a value
that is not an object (here the list []) is returned as-is, not as the
empty mapping, contradicting the claim and the function's own -> dict
annotation; the next save on such a store then raises TypeError. -/
theorem load_state_non_dict_passthrough :
    loadState FileState.missing = Json.dict []
  ∧ loadState FileState.unreadable = Json.dict []
  ∧ loadState (FileState.stored (Json.list [])) = Json.list []
  ∧ isDict (loadState (FileState.stored (Json.list []))) = false
  ∧ saveStateForChat (FileState.stored (Json.list [])) 42 25 5
      = Except.error PyError.typeError
  ∧ isDict (loadState (FileState.stored (Json.dict [("42", cfgJson 25 5)]))) = true :=
  ⟨rfl, rfl, rfl, rfl, rfl, rfl⟩

/-- C7 (code bug evaluation): the superscript digit "²" satisfies
text.isdigit() but int(text) raises ValueError, so both duration handlers
can throw; ordinary malformed input re-prompts with the state unchanged
and well-formed input buffers the value and advances. -/
theorem duration_handler_superscript_raises :
    pyIsdigit (pyStrip "²") = true
  ∧ work_duration "²" ⟨none, none⟩ = Except.error PyError.valueError
  ∧ work_duration "abc" ⟨none, none⟩
      = Except.ok (ConvState.WORK_DURATION, ⟨none, none⟩,
          [Event.send workRepromptText])
  ∧ work_duration " 25 " ⟨none, none⟩
      = Except.ok (ConvState.REST_DURATION, ⟨some 25, none⟩,
          [Event.send restAskText])
  ∧ rest_duration "²" 42 ⟨some 25, none⟩ ⟨none, none, none⟩ FileState.missing 1
      = Except.error PyError.valueError :=
  ⟨rfl, rfl, rfl, rfl, rfl⟩

/-- C6 counterexample: at current time exactly 08:00:00 (28800 s into the
day) with requested time-of-day "08:00", the next matching timestamp at or
after now is now itself, but the code schedules the same time on the
following day. -/
theorem household_time_exact_boundary_counterexample :
    specNextAtOrAfter 28800 28800 = 28800
  ∧ householdTargetDt 28800 28800 = 115200
  ∧ householdTargetDt 28800 28800 ≠ specNextAtOrAfter 28800 28800 := by
  decide

/-- C6 amended: the fire time is the next absolute timestamp STRICTLY
after now whose time-of-day matches the input: when the requested time
today is at or before now the target is the same time-of-day the next day,
otherwise later today; "08:00" requested at 07:00 fires the same day and
requested at 09:00 fires the next day. -/
theorem household_time_next_strictly_after
    (now targetSec : Nat) (ht : targetSec < secondsPerDay) :
    householdTargetDt now targetSec % secondsPerDay = targetSec
  ∧ now < householdTargetDt now targetSec
  ∧ (∀ t, now < t → t % secondsPerDay = targetSec →
      householdTargetDt now targetSec ≤ t)
  ∧ (∀ d, householdTargetDt (d * secondsPerDay + 25200) 28800
      = d * secondsPerDay + 28800)
  ∧ (∀ d, householdTargetDt (d * secondsPerDay + 32400) 28800
      = (d + 1) * secondsPerDay + 28800) := by
  simp only [householdTargetDt, secondsPerDay] at ht ⊢
  refine ⟨?_, ?_, ?_, ?_, ?_⟩
  · split <;> omega
  · split <;> omega
  · intro t h1 h2
    split <;> omega
  · intro d
    split <;> omega
  · intro d
    split <;> omega

/-- Witness for C6 amended at 07:00 with requested time 08:00. -/
theorem household_time_next_strictly_after_witness :
    householdTargetDt 25200 28800 % secondsPerDay = 28800
  ∧ 25200 < householdTargetDt 25200 28800 := by
  have h := household_time_next_strictly_after 25200 28800 (by decide)
  exact ⟨h.1, h.2.1⟩

/-! ### Characterizations of the handlers -/

theorem cancelAnyRunningSchedule_running (cd : ChatData) (t : TaskRef)
    (hmem : cd.work_rest_task = some t) (ht : t.done = false) :
    cancelAnyRunningSchedule cd
      = ⟨true, { cd with work_rest_task := none },
          [Event.cancelTask t.id, Event.awaitTask t.id, Event.clearRef]⟩ := by
  rw [cancelAnyRunningSchedule, hmem]
  simp [ht]

theorem cancelAnyRunningSchedule_chat (cd : ChatData) :
    (cancelAnyRunningSchedule cd).chat = { cd with work_rest_task := none } := by
  rcases hc : cd.work_rest_task with _ | t
  · simp [cancelAnyRunningSchedule, hc]
  · cases ht : t.done <;> simp [cancelAnyRunningSchedule, hc, ht]

theorem saveStateForChat_ok (f : FileState) (chatId w r : Int) (f1 : FileState)
    (h : saveStateForChat f chatId w r = Except.ok f1) :
    ∃ data, loadState f = Json.dict data
      ∧ f1 = FileState.stored
          (Json.dict (dictSet data (toString chatId) (cfgJson w r))) := by
  unfold saveStateForChat at h
  split at h
  · rename_i data heq
    refine ⟨data, heq, ?_⟩
    injection h with h
    exact h.symm
  · simp at h

theorem getSavedDurations_after_save (chatId w r : Int)
    (data : List (String × Json)) :
    getSavedDurations chatId (FileState.stored
        (Json.dict (dictSet data (toString chatId) (cfgJson w r))))
      = Except.ok (some (w, r)) := by
  have hself := dictGet_dictSet_self data (toString chatId) (cfgJson w r)
  simp only [getSavedDurations, loadState]
  rw [hself]
  simp [cfgJson, dictGet, pyIntOfJson]

theorem rest_duration_ok_end (msgText : String) (chatId : Int) (ud : UserData)
    (cd : ChatData) (f : FileState) (nid : Nat) (res : HandlerResult)
    (h : rest_duration msgText chatId ud cd f nid = Except.ok res)
    (hEnd : res.state = ConvState.END) :
    ∃ w n data, ud.work_minutes = some w ∧ 0 < n
      ∧ loadState f = Json.dict data
      ∧ res = ⟨ConvState.END, { ud with rest_minutes := some n },
          { (cancelAnyRunningSchedule cd).chat with
              work_rest_task := some ⟨nid, false⟩
              last_work_m := some w
              last_rest_m := some n },
          FileState.stored
            (Json.dict (dictSet data (toString chatId) (cfgJson w n))),
          [Event.send (okText w n)] ++ (cancelAnyRunningSchedule cd).events
            ++ [Event.createTask nid, Event.saveState,
                Event.send workPhaseText]⟩ := by
  simp only [rest_duration] at h
  split at h
  · injection h with h
    rw [← h] at hEnd
    simp at hEnd
  · split at h
    · simp at h
    · rename_i n hn
      split at h
      · injection h with h
        rw [← h] at hEnd
        simp at hEnd
      · rename_i hnpos
        split at h
        · simp at h
        · rename_i workM hwm
          split at h
          · simp at h
          · rename_i f1 hsave
            obtain ⟨data, hload, hf1⟩ :=
              saveStateForChat_ok f chatId workM n f1 hsave
            injection h with h
            refine ⟨workM, n, data, ?_, by omega, hload, ?_⟩
            · simpa using hwm
            · rw [← h, hf1]

/-- C1: every operation that can start a cycle (completing duration
collection, resume via command, resume via button, re-entering the flow
with /start) first cancels a running cycle task, awaits its unwinding and
clears the stored reference before the new task is created. -/
theorem cycle_start_cancels_existing_first
    (cd : ChatData) (t : TaskRef) (msgText : String) (chatId : Int)
    (ud : UserData) (f : FileState) (nid : Nat)
    (hmem : cd.work_rest_task = some t) (ht : t.done = false) :
    cancelAnyRunningSchedule cd
      = ⟨true, { cd with work_rest_task := none },
          [Event.cancelTask t.id, Event.awaitTask t.id, Event.clearRef]⟩
  ∧ (start cd).2.2
      = [Event.cancelTask t.id, Event.awaitTask t.id, Event.clearRef,
         Event.send chooseText]
  ∧ (∀ res, rest_duration msgText chatId ud cd f nid = Except.ok res →
      res.state = ConvState.END →
      ∃ w n, res.events
          = [Event.send (okText w n), Event.cancelTask t.id,
             Event.awaitTask t.id, Event.clearRef, Event.createTask nid,
             Event.saveState, Event.send workPhaseText]
        ∧ res.chat.work_rest_task = some ⟨nid, false⟩)
  ∧ (∀ res, resume_command chatId cd f nid = Except.ok res →
      res.started.isSome = true →
      ∃ w n, res.events
          = [Event.cancelTask t.id, Event.awaitTask t.id, Event.clearRef,
             Event.createTask nid, Event.send (resumedText w n)]
        ∧ res.chat.work_rest_task = some ⟨nid, false⟩)
  ∧ (∀ res, resume_button chatId cd f nid = Except.ok res →
      res.started.isSome = true →
      ∃ w n, res.events
          = [Event.cancelTask t.id, Event.awaitTask t.id, Event.clearRef,
             Event.createTask nid, Event.send (resumedText w n)]
        ∧ res.chat.work_rest_task = some ⟨nid, false⟩) := by
  have hc := cancelAnyRunningSchedule_running cd t hmem ht
  refine ⟨hc, by simp [start, hc], ?_, ?_, ?_⟩
  · intro res h hEnd
    obtain ⟨w, n, data, hw, hn, hload, hres⟩ :=
      rest_duration_ok_end msgText chatId ud cd f nid res h hEnd
    refine ⟨w, n, ?_, ?_⟩
    · rw [hres]
      simp [hc]
    · rw [hres]
  · intro res h hs
    simp only [resume_command] at h
    split at h
    · rename_i p hp
      injection h with h
      refine ⟨p.1, p.2, ?_, ?_⟩
      · rw [← h]
        simp [hc]
      · rw [← h]
    · split at h
      · simp at h
      · injection h with h
        rw [← h] at hs
        simp at hs
      · rename_i p hp
        injection h with h
        refine ⟨p.1, p.2, ?_, ?_⟩
        · rw [← h]
          simp [hc]
        · rw [← h]
  · intro res h hs
    simp only [resume_button] at h
    split at h
    · rename_i p hp
      injection h with h
      refine ⟨p.1, p.2, ?_, ?_⟩
      · rw [← h]
        simp [hc]
      · rw [← h]
    · split at h
      · simp at h
      · injection h with h
        rw [← h] at hs
        simp at hs
      · rename_i p hp
        injection h with h
        refine ⟨p.1, p.2, ?_, ?_⟩
        · rw [← h]
          simp [hc]
        · rw [← h]

/-- Witness for C1 with a running task of id 0 and a /start re-entry. -/
theorem cycle_start_cancels_existing_first_witness :
    (start ⟨some ⟨0, false⟩, none, none⟩).2.2
      = [Event.cancelTask 0, Event.awaitTask 0, Event.clearRef,
         Event.send chooseText] :=
  (cycle_start_cancels_existing_first ⟨some ⟨0, false⟩, none, none⟩ ⟨0, false⟩
    "5" 42 ⟨some 25, none⟩ FileState.missing 1 rfl rfl).2.1

/-- C2 (code bug evaluation): completing duration collection sends the
work-phase message twice before the first sleep — once from rest_duration
itself (line 166) and once from the top of _work_rest_loop (line 329) —
whereas a resume start sends it exactly once; the claim requires exactly
one work message at cycle start. -/
theorem initial_start_duplicate_work_message :
    (match rest_duration "5" 42 ⟨some 25, none⟩ ⟨none, none, none⟩
        FileState.missing 1 with
     | Except.ok res => countWorkSends (res.events ++ workRestLoopEvents 25 5 0)
     | Except.error _ => 0) = 2
  ∧ (match resume_command 42 ⟨none, some 25, some 5⟩ FileState.missing 1 with
     | Except.ok res => countWorkSends (res.events ++ workRestLoopEvents 25 5 0)
     | Except.error _ => 0) = 1 := by
  exact ⟨by decide, by decide⟩

/-- The loop on its own emits exactly the strict alternation WORK, REST,
WORK, ... — one message per phase, starting with WORK, and (the trace being
a finite prefix cut at a suspension point) nothing after cancellation. -/
theorem workRestLoop_alternates (workM restM : Int) (n : Nat) :
    (workRestLoopEvents workM restM n).filterMap phaseOfSend
      = (List.range (n + 1)).map
          (fun i => if i % 2 = 0 then Phase.work else Phase.rest) := by
  induction n with
  | zero => rfl
  | succ n ih =>
    rw [workRestLoopEvents, List.filterMap_append, ih]
    have hr : List.range (n + 1 + 1) = List.range (n + 1) ++ [n + 1] :=
      List.range_succ (n + 1)
    rw [hr, List.map_append]
    congr 1
    rcases Nat.mod_two_eq_zero_or_one n with hn | hn
    · have h1 : (n + 1) % 2 = 1 := by omega
      simp [hn, h1, phaseOfSend, workPhaseText, restPhaseText]
    · have h1 : (n + 1) % 2 = 0 := by omega
      simp [hn, h1, phaseOfSend, workPhaseText, restPhaseText]

/-- C3 counterexample: resume via button starts a cycle with the persisted
pair yet leaves the in-memory cache unset, and resume via command starts a
cycle from the in-memory pair yet writes nothing to the store (which stays
missing, so a store-only resume cannot reproduce this pair). -/
theorem resume_start_does_not_persist_counterexample :
    (resume_button 42 ⟨none, none, none⟩ demoStore 1).map
        (fun r => (r.started, r.chat.last_work_m, r.chat.last_rest_m))
      = Except.ok (some (25, 5), none, none)
  ∧ (resume_command 7 ⟨none, some 30, some 10⟩ FileState.missing 1).map
        (fun r => (r.started, r.file))
      = Except.ok (some (30, 10), FileState.missing) :=
  ⟨rfl, rfl⟩

/-- C3 amended: completing duration collection persists the pair and
refreshes the in-memory cache, and a later resume from the persisted store
alone reproduces the same pair; a resume start itself however does not
write the store — resume via command refreshes only the in-memory cache,
resume via button refreshes neither. -/
theorem start_persistence_amended
    (msgText : String) (chatId : Int) (ud : UserData) (cd : ChatData)
    (f : FileState) (nid : Nat) :
    (∀ res, rest_duration msgText chatId ud cd f nid = Except.ok res →
      res.state = ConvState.END →
      ∃ w n, ud.work_minutes = some w
        ∧ res.chat.last_work_m = some w ∧ res.chat.last_rest_m = some n
        ∧ getSavedDurations chatId res.file = Except.ok (some (w, n))
        ∧ (resume_command chatId ⟨none, none, none⟩ res.file nid).map
            (fun r2 => r2.started) = Except.ok (some (w, n)))
  ∧ (∀ res, resume_command chatId cd f nid = Except.ok res →
      res.file = f
      ∧ (res.started.isSome = true →
          res.chat.last_work_m = res.started.map Prod.fst
          ∧ res.chat.last_rest_m = res.started.map Prod.snd))
  ∧ (∀ res, resume_button chatId cd f nid = Except.ok res →
      res.file = f
      ∧ res.chat.last_work_m = cd.last_work_m
      ∧ res.chat.last_rest_m = cd.last_rest_m) := by
  refine ⟨?_, ?_, ?_⟩
  · intro res h hEnd
    obtain ⟨w, n, data, hw, hn, hload, hres⟩ :=
      rest_duration_ok_end msgText chatId ud cd f nid res h hEnd
    refine ⟨w, n, hw, by rw [hres], by rw [hres], ?_, ?_⟩
    · rw [hres]
      exact getSavedDurations_after_save chatId w n data
    · rw [hres]
      simp [resume_command, getSavedDurations_after_save, Except.map]
  · intro res h
    simp only [resume_command] at h
    split at h
    · rename_i p hp
      injection h with h
      rw [← h]
      exact ⟨rfl, fun _ => ⟨rfl, rfl⟩⟩
    · split at h
      · simp at h
      · injection h with h
        rw [← h]
        exact ⟨rfl, fun hs => by simp at hs⟩
      · rename_i p hp
        injection h with h
        rw [← h]
        exact ⟨rfl, fun _ => ⟨rfl, rfl⟩⟩
  · intro res h
    simp only [resume_button] at h
    split at h
    · rename_i p hp
      injection h with h
      rw [← h, cancelAnyRunningSchedule_chat]
      exact ⟨rfl, rfl, rfl⟩
    · split at h
      · simp at h
      · injection h with h
        rw [← h]
        exact ⟨rfl, rfl, rfl⟩
      · rename_i p hp
        injection h with h
        rw [← h, cancelAnyRunningSchedule_chat]
        exact ⟨rfl, rfl, rfl⟩

/-- Witness for C3 amended: starting with work 25 / rest 5 writes the store
record for chat 42 and a store-only resume reproduces the pair. -/
theorem start_persistence_amended_witness :
    getSavedDurations 42 (FileState.stored (Json.dict [("42", cfgJson 25 5)]))
      = Except.ok (some (25, 5))
  ∧ (resume_command 42 ⟨none, none, none⟩
        (FileState.stored (Json.dict [("42", cfgJson 25 5)])) 1).map
        (fun r2 => r2.started) = Except.ok (some (25, 5)) := by
  have h := (start_persistence_amended "5" 42 ⟨some 25, none⟩ ⟨none, none, none⟩
      FileState.missing 1).1
    ⟨ConvState.END, ⟨some 25, some 5⟩, ⟨some ⟨1, false⟩, some 25, some 5⟩,
      FileState.stored (Json.dict [("42", cfgJson 25 5)]),
      [Event.send (okText 25 5), Event.clearRef, Event.createTask 1,
       Event.saveState, Event.send workPhaseText]⟩ rfl rfl
  obtain ⟨w, n, hw, h1, h2, h3, h4⟩ := h
  have hw' : (25 : Int) = w := by injection hw
  have hn' : (5 : Int) = n := by injection h2
  rw [← hw', ← hn'] at h3 h4
  exact ⟨h3, h4⟩

/-- C4 counterexample: with no in-memory pair and a persisted pair for chat
42, resume via command refreshes the in-memory cache while resume via
button leaves it unset: the two surfaces do not leave the same in-memory
state. -/
theorem resume_surfaces_differ_counterexample :
    (resume_command 42 ⟨none, none, none⟩ demoStore 1).map
        (fun r => r.chat.last_work_m) = Except.ok (some 25)
  ∧ (resume_button 42 ⟨none, none, none⟩ demoStore 1).map
        (fun r => r.chat.last_work_m) = Except.ok none :=
  ⟨rfl, rfl⟩

/-- C4 amended: the stop command and the stop button perform the same
cancellation, leave the same chat state and report the same outcome
(stopped with a resume offer when a cycle was cancelled, nothing-active
otherwise); the resume command and the resume button choose the same
configuration, start the same cycle and leave the same persisted store —
but not the same in-memory cache (see the counterexample). -/
theorem control_surfaces_equivalent_amended
    (cd : ChatData) (chatId : Int) (f : FileState) (nid : Nat) :
    (stop_command cd).1 = (stop_button cd).1
  ∧ (stop_command cd).2 = (cancelAnyRunningSchedule cd).events
      ++ (if (cancelAnyRunningSchedule cd).cancelled
          then [Event.send stoppedOfferText]
          else [Event.send nothingActiveText])
  ∧ (stop_button cd).2 = (cancelAnyRunningSchedule cd).events
      ++ (if (cancelAnyRunningSchedule cd).cancelled
          then [Event.send stoppedText, Event.send resumeOfferText]
          else [Event.send nothingActiveText])
  ∧ (resume_command chatId cd f nid).map
        (fun res => (res.started, res.chat.work_rest_task, res.file))
      = (resume_button chatId cd f nid).map
        (fun res => (res.started, res.chat.work_rest_task, res.file)) := by
  refine ⟨?_, ?_, ?_, ?_⟩
  · cases hc : (cancelAnyRunningSchedule cd).cancelled <;>
      simp [stop_command, stop_button, hc]
  · cases hc : (cancelAnyRunningSchedule cd).cancelled <;>
      simp [stop_command, hc]
  · cases hc : (cancelAnyRunningSchedule cd).cancelled <;>
      simp [stop_button, hc]
  · cases hw : cd.last_work_m with
    | none =>
      cases hg : getSavedDurations chatId f with
      | error e => simp [resume_command, resume_button, hw, hg, Except.map]
      | ok o =>
        cases o <;>
          simp [resume_command, resume_button, hw, hg, Except.map,
            cancelAnyRunningSchedule_chat]
    | some w =>
      cases hr : cd.last_rest_m with
      | none =>
        cases hg : getSavedDurations chatId f with
        | error e => simp [resume_command, resume_button, hw, hr, hg, Except.map]
        | ok o =>
          cases o <;>
            simp [resume_command, resume_button, hw, hr, hg, Except.map,
              cancelAnyRunningSchedule_chat]
      | some r =>
        simp [resume_command, resume_button, hw, hr, Except.map,
          cancelAnyRunningSchedule_chat]

/-- C5: resume prefers the in-memory pair (for any store state), falls back
to the persisted store only when the in-memory pair is incomplete, and with
neither source reports the no-saved-settings message and starts no cycle;
the final conjunct records the companion code bug: with an empty cache and
a store file whose JSON is a list, resume raises AttributeError instead of
reporting the user-visible failure. -/
theorem resume_selection_semantics
    (chatId : Int) (cd : ChatData) (f : FileState) (nid : Nat) :
    (∀ w r, cd.last_work_m = some w → cd.last_rest_m = some r →
      (resume_command chatId cd f nid).map (fun res => res.started)
        = Except.ok (some (w, r)))
  ∧ (∀ w r, (cd.last_work_m = none ∨ cd.last_rest_m = none) →
      getSavedDurations chatId f = Except.ok (some (w, r)) →
      (resume_command chatId cd f nid).map (fun res => res.started)
        = Except.ok (some (w, r)))
  ∧ ((cd.last_work_m = none ∨ cd.last_rest_m = none) →
      getSavedDurations chatId f = Except.ok none →
      resume_command chatId cd f nid
        = Except.ok ⟨cd, f, [Event.send noSavedText], none⟩)
  ∧ resume_command 42 ⟨none, none, none⟩ (FileState.stored (Json.list [])) 1
      = Except.error PyError.attributeError := by
  refine ⟨?_, ?_, ?_, rfl⟩
  · intro w r hw hr
    simp [resume_command, hw, hr, Except.map]
  · intro w r hmem hsaved
    rcases hmem with hmem | hmem
    · simp [resume_command, hmem, hsaved, Except.map]
    · cases hw : cd.last_work_m <;>
        simp [resume_command, hw, hmem, hsaved, Except.map]
  · intro hmem hsaved
    rcases hmem with hmem | hmem
    · simp [resume_command, hmem, hsaved]
    · cases hw : cd.last_work_m <;> simp [resume_command, hw, hmem, hsaved]

/-- Witness for C5: in-memory preference with a differing store, store
fallback, and the no-configuration failure. -/
theorem resume_selection_semantics_witness :
    (resume_command 42 ⟨none, some 30, some 10⟩ demoStore 1).map
        (fun res => res.started) = Except.ok (some (30, 10))
  ∧ (resume_command 42 ⟨none, none, none⟩ demoStore 1).map
        (fun res => res.started) = Except.ok (some (25, 5))
  ∧ resume_command 42 ⟨none, none, none⟩ FileState.missing 1
      = Except.ok ⟨⟨none, none, none⟩, FileState.missing,
          [Event.send noSavedText], none⟩ := by
  refine ⟨(resume_selection_semantics 42 ⟨none, some 30, some 10⟩ demoStore 1).1
      30 10 rfl rfl,
    (resume_selection_semantics 42 ⟨none, none, none⟩ demoStore 1).2.1
      25 5 (Or.inl rfl) (by rfl),
    (resume_selection_semantics 42 ⟨none, none, none⟩ FileState.missing 1).2.2.1
      (Or.inl rfl) (by rfl)⟩

/-- C9: stop returns whether a cycle was actually cancelled — true exactly
when a not-yet-done task is stored — always clears the reference, reports
the stopped message with a resume offer on true and the nothing-active
message on false (also for an already-done task), and a second stop right
after a first one always reports nothing-active; the model is a total
function, matching the code path that swallows CancelledError and never
raises. -/
theorem stop_reports_whether_cancelled (cd : ChatData) :
    ((cancelAnyRunningSchedule cd).cancelled = true
      ↔ ∃ t, cd.work_rest_task = some t ∧ t.done = false)
  ∧ (cancelAnyRunningSchedule cd).chat.work_rest_task = none
  ∧ ((cancelAnyRunningSchedule cd).cancelled = true →
      (stop_command cd).2 = (cancelAnyRunningSchedule cd).events
        ++ [Event.send stoppedOfferText])
  ∧ ((cancelAnyRunningSchedule cd).cancelled = false →
      (stop_command cd).2 = (cancelAnyRunningSchedule cd).events
        ++ [Event.send nothingActiveText])
  ∧ (stop_command (stop_command cd).1).2
      = [Event.clearRef, Event.send nothingActiveText] := by
  rcases hc : cd.work_rest_task with _ | ⟨tid, td⟩
  · refine ⟨by simp [cancelAnyRunningSchedule, hc], ?_, ?_, ?_, ?_⟩
    · simp [cancelAnyRunningSchedule, hc]
    · intro h
      simp [cancelAnyRunningSchedule, hc] at h
    · intro _
      simp [stop_command, cancelAnyRunningSchedule, hc]
    · simp [stop_command, cancelAnyRunningSchedule, hc]
  · cases td with
    | false =>
      refine ⟨by simp [cancelAnyRunningSchedule, hc], ?_, ?_, ?_, ?_⟩
      · simp [cancelAnyRunningSchedule, hc]
      · intro _
        simp [stop_command, cancelAnyRunningSchedule, hc]
      · intro h
        simp [cancelAnyRunningSchedule, hc] at h
      · simp [stop_command, cancelAnyRunningSchedule, hc]
    | true =>
      refine ⟨by simp [cancelAnyRunningSchedule, hc], ?_, ?_, ?_, ?_⟩
      · simp [cancelAnyRunningSchedule, hc]
      · intro h
        simp [cancelAnyRunningSchedule, hc] at h
      · intro _
        simp [stop_command, cancelAnyRunningSchedule, hc]
      · simp [stop_command, cancelAnyRunningSchedule, hc]

/-- Witness for C9: a running task of id 0, stopped twice. -/
theorem stop_reports_whether_cancelled_witness :
    (stop_command ⟨some ⟨0, false⟩, none, none⟩).2
      = (cancelAnyRunningSchedule ⟨some ⟨0, false⟩, none, none⟩).events
        ++ [Event.send stoppedOfferText]
  ∧ (stop_command (stop_command ⟨some ⟨0, false⟩, none, none⟩).1).2
      = [Event.clearRef, Event.send nothingActiveText] := by
  have h := stop_reports_whether_cancelled ⟨some ⟨0, false⟩, none, none⟩
  exact ⟨h.2.2.1 (by rfl), h.2.2.2.2⟩

end TimeToWorkBot
